import Mathlib

/-!
Shallow embedding of the task-coordination core of the Arachne media
downloader (backend/tasks.py, backend/downloader.py, backend/api_routes.py).

Python dicts are modelled as insertion-ordered association lists over a
`Value` type (strings and exact rationals; Python floats are modelled as
rationals).  The global `_tasks` registry is modelled as an association list
from task id to record, threaded explicitly through each operation.  Thread
spawns are recorded in the result values of the route models; the worker
body itself is modelled as a function from the engine's emitted progress
events and final result to a store transformer.
-/

namespace Arachne

/-- A JSON-ish scalar stored in a task record: Python str or number
(floats modelled as exact rationals). -/
inductive Value where
  | str (s : String)
  | num (q : ℚ)
deriving DecidableEq, Repr

/-- A Python dict with string keys, modelled as an insertion-ordered
association list (as Python dicts are). -/
def Rec : Type := List (String × Value)

instance : DecidableEq Rec := by unfold Rec; infer_instance

instance : Inhabited Rec := ⟨([] : List (String × Value))⟩

/-- `r.get(k)`: first (unique) binding of `k`, if any. -/
def recGet : Rec → String → Option Value
  | [], _ => none
  | (k', v) :: rest, k => if k' = k then some v else recGet rest k

/-- `r[k] = v`: replace the binding in place if `k` is present (Python keeps
the key's position), else append it. -/
def recSet : Rec → String → Value → Rec
  | [], k, v => [(k, v)]
  | (k', v') :: rest, k, v =>
      if k' = k then (k, v) :: rest else (k', v') :: recSet rest k v

/-- `r.update(upd)`: merge every binding of `upd` into `r`, left to right. -/
def recUpdate (r upd : Rec) : Rec :=
  upd.foldl (fun acc kv => recSet acc kv.1 kv.2) r

/-- The in-memory `_tasks` registry: task id -> task record.
(The lock serialises access; the model is the sequential semantics.) -/
def Store : Type := List (String × Rec)

instance : DecidableEq Store := by unfold Store; infer_instance

instance : Inhabited Store := ⟨([] : List (String × Rec))⟩

/-- `_tasks.get(task_id)`. -/
def storeLookup : Store → String → Option Rec
  | [], _ => none
  | (k', r) :: rest, k => if k' = k then some r else storeLookup rest k

/-- `_tasks[task_id] = r`. -/
def storeSet : Store → String → Rec → Store
  | [], k, r => [(k, r)]
  | (k', r') :: rest, k, r =>
      if k' = k then (k, r) :: rest else (k', r') :: storeSet rest k r

/-- `task.get('status') in ['downloading', 'queued', 'processing']`. -/
def isActiveStatus (v : Option Value) : Bool :=
  match v with
  | some (Value.str st) => st = "downloading" || st = "queued" || st = "processing"
  | _ => false

/-- tasks.py `get_active_downloads_count`: number of records whose status is
`downloading`, `queued` or `processing`. -/
def get_active_downloads_count (s : Store) : ℕ :=
  (s.filter (fun kv => isActiveStatus (recGet kv.2 "status"))).length

/-- tasks.py `get_task_status`: `_tasks.get(task_id, {}).copy()` — the current
record, or the empty dict when the id is absent.  (The `.copy()` aliasing
behaviour is modelled separately with an explicit heap below.) -/
def get_task_status (s : Store) (task_id : String) : Rec :=
  (storeLookup s task_id).getD []

/-- The initial record `{'status': 'queued', 'url': url, 'percent': 0}`
inserted by `create_download_task`. -/
def initialRec (url : String) : Rec :=
  [("status", Value.str "queued"), ("url", Value.str url), ("percent", Value.num 0)]

/-- tasks.py `create_download_task`: generate an id (supplied here as the
`task_id` argument, modelling `uuid.uuid4()`), insert the initial queued
record, spawn the worker thread, and return the id.  The returned pair is
(task id, store after the insert); the spawn is recorded by the callers. -/
def create_download_task (task_id url : String) (s : Store) : String × Store :=
  (task_id, storeSet s task_id (initialRec url))

/-- tasks.py `_update_task_progress`: merge `progress_data` into the record
when `task_id in _tasks`; otherwise log a warning and leave the store
unchanged. -/
def _update_task_progress (s : Store) (task_id : String) (progress_data : Rec) : Store :=
  match storeLookup s task_id with
  | some r => storeSet s task_id (recUpdate r progress_data)
  | none => s

/-! ### downloader.py: the yt-dlp progress hook -/

/-- The fields of the yt-dlp progress dict `d` that `_progress_hook` reads.
`none` models an absent key (or an explicit Python `None`). -/
structure HookDict where
  status : Option String
  total_bytes : Option ℚ
  total_bytes_estimate : Option ℚ
  downloaded_bytes : Option ℚ
  speed : Option ℚ
  eta : Option ℚ
deriving DecidableEq, Repr

/-- `d.get("total_bytes") or d.get("total_bytes_estimate", 0)`: Python `or`
falls through on a falsy (absent/None/zero) left operand. -/
def hookTotal (d : HookDict) : ℚ :=
  match d.total_bytes with
  | some t => if t = 0 then d.total_bytes_estimate.getD 0 else t
  | none => d.total_bytes_estimate.getD 0

/-- downloader.py `_progress_hook`: translate a yt-dlp progress dict into the
dict forwarded to the progress callback, or `none` when the hook forwards
nothing (unrecognised status). -/
def _progress_hook (d : HookDict) : Option Rec :=
  match d.status with
  | some "downloading" =>
      let total := hookTotal d
      let downloaded := d.downloaded_bytes.getD 0
      let percent : ℚ := if 0 < total then downloaded / total * 100 else 0
      some [("status", Value.str "downloading"), ("percent", Value.num percent),
            ("total", Value.num total), ("downloaded", Value.num downloaded),
            ("speed", Value.num (d.speed.getD 0)), ("eta", Value.num (d.eta.getD 0))]
  | some "finished" =>
      some [("status", Value.str "processing"), ("message", Value.str "Merging formats...")]
  | some "error" =>
      some [("status", Value.str "error"),
            ("error", Value.str "Unknown error during download")]
  | _ => none

/-- One engine progress event delivered through the worker's bound callback:
`_progress_hook` composed with `lambda progress: _update_task_progress(task_id, progress)`. -/
def progressSink (s : Store) (task_id : String) (d : HookDict) : Store :=
  match _progress_hook d with
  | some pd => _update_task_progress s task_id pd
  | none => s

/-! ### tasks.py: the worker body -/

/-- The dict returned by `YouTubeDownloader.download`: `{"success": True}` or
`{"success": False, "error": msg}` (`error` may be absent, hence `Option`). -/
structure DlOutcome where
  success : Bool
  error : Option String
deriving DecidableEq, Repr

/-- The final-status dict the worker builds from the engine result
(tasks.py `_download_worker`, step 3). -/
def workerFinalRec (result : DlOutcome) : Rec :=
  if result.success then
    [("status", Value.str "completed"), ("percent", Value.num 100)]
  else
    [("status", Value.str "error"),
     ("error", Value.str (result.error.getD "Unknown download error"))]

/-- tasks.py `_download_worker`, normal path (no exception escapes the body):
the engine emits `events` through the bound progress sink, `download`
returns `result`, and the worker applies the final status update. -/
def _download_worker (task_id : String) (events : List HookDict) (result : DlOutcome)
    (s : Store) : Store :=
  let s1 := events.foldl (fun st d => progressSink st task_id d) s
  _update_task_progress s1 task_id (workerFinalRec result)

/-- tasks.py `_download_worker`, `except Exception` path: an uncaught fault is
raised after `events` progress updates were applied; the handler writes the
generic error record. -/
def _download_worker_faulted (task_id : String) (events : List HookDict)
    (s : Store) : Store :=
  let s1 := events.foldl (fun st d => progressSink st task_id d) s
  _update_task_progress s1 task_id
    [("status", Value.str "error"),
     ("error", Value.str "A critical error occurred in the worker thread.")]

/-! ### api_routes.py: URL extraction and the download routes -/

/-- Python `str.strip()` whitespace set (ASCII part). -/
def isPySpace (c : Char) : Bool :=
  c = ' ' || c = '\t' || c = '\n' || c = '\r' || c.toNat = 11 || c.toNat = 12

/-- Python `text.strip()`. -/
def pyStrip (s : String) : String :=
  String.mk (((s.data.dropWhile isPySpace).reverse.dropWhile isPySpace).reverse)

/-- One character of the URL body class in `_extract_url_from_text`'s regex
`[a-zA-Z]|[0-9]|[$-_@.&+]|[!*\\(\\),]|%[0-9a-fA-F][0-9a-fA-F]`.  The class
`[$-_@.&+]` is the range 0x24-0x5F (which already contains the digits, the
upper-case letters, `%` and every char of `@.&+*\(),`), so the union reduces
to lower-case letters, the 0x24-0x5F range, and `!`. -/
def isUrlChar (c : Char) : Bool :=
  ('a' ≤ c && c ≤ 'z') || (36 ≤ c.toNat && c.toNat ≤ 95) || c = '!'

/-- Greedy run of URL-body characters (the regex `+` over the class). -/
def takeUrlRun : List Char → List Char
  | [] => []
  | c :: cs => if isUrlChar c then c :: takeUrlRun cs else []

/-- Drop a literal character sequence from the front, or fail. -/
def dropLit : List Char → List Char → Option (List Char)
  | [], cs => some cs
  | _ :: _, [] => none
  | p :: ps, c :: cs => if c = p then dropLit ps cs else none

/-- Match `https?://<class>+` anchored at the start of `cs`; the optional `s`
is tried greedily first, with backtracking, as Python's `re` does. -/
def matchUrlAt (cs : List Char) : Option (List Char) :=
  match dropLit "https://".data cs with
  | some rest =>
      let run := takeUrlRun rest
      if run.isEmpty then
        match dropLit "http://".data cs with
        | some rest2 =>
            let run2 := takeUrlRun rest2
            if run2.isEmpty then none else some ("http://".data ++ run2)
        | none => none
      else some ("https://".data ++ run)
  | none =>
      match dropLit "http://".data cs with
      | some rest =>
          let run := takeUrlRun rest
          if run.isEmpty then none else some ("http://".data ++ run)
      | none => none

/-- `re.search`: leftmost position at which the pattern matches. -/
def searchUrl : List Char → Option (List Char)
  | [] => none
  | c :: cs =>
      match matchUrlAt (c :: cs) with
      | some m => some m
      | none => searchUrl cs

/-- api_routes.py `_extract_url_from_text`: `""` when `text` is empty or holds
no URL, else the first regex match. -/
def _extract_url_from_text (text : String) : String :=
  if text = "" then ""
  else
    match searchUrl text.data with
    | some m => String.mk m
    | none => ""

/-- Result of the single-download route: HTTP status code, the task id on
success, the worker threads spawned while handling the request, and the
store afterwards. -/
structure DlResult where
  code : ℕ
  task_id : Option String
  spawned : List String
  store : Store
deriving DecidableEq

/-- api_routes.py `start_download` (after JSON parsing): extract the URL from
the request text (400 when none), reject with 429 when
`get_active_downloads_count() >= int(config.max_concurrent_downloads)`,
else create the task (the fresh uuid4 is supplied as `newId`) and answer
201.  A worker is spawned exactly for the created task. -/
def start_download (s : Store) (max_concurrent : ℕ) (newId rawUrl : String) : DlResult :=
  let url := _extract_url_from_text (pyStrip rawUrl)
  if url = "" then ⟨400, none, [], s⟩
  else if max_concurrent ≤ get_active_downloads_count s then ⟨429, none, [], s⟩
  else
    let (tid, s') := create_download_task newId url s
    ⟨201, some tid, [tid], s'⟩

/-- Result of the batch route: the `created_task_details` list of
(task id, url) pairs, the reported `skipped_tasks` count, and the store. -/
structure BatchResult where
  created : List (String × String)
  skipped : ℕ
  store : Store
deriving DecidableEq

/-- The `for raw_url in urls_to_process` loop of `start_batch_download`:
before each URL the admission check runs; on hitting the ceiling,
`skipped_tasks = len(urls_to_process) - len(created_task_details)` is
recorded and the loop breaks.  URLs whose extraction fails are dropped
without creating a task.  `gen k` models the `uuid.uuid4()` drawn for the
`k`-th created task. -/
def batchLoop (c total : ℕ) (gen : ℕ → String) :
    Store → ℕ → List String → List (String × String) → BatchResult
  | s, _, [], created => ⟨created, 0, s⟩
  | s, k, raw :: rest, created =>
      if c ≤ get_active_downloads_count s then
        ⟨created, total - created.length, s⟩
      else
        let url := _extract_url_from_text (pyStrip raw)
        if url = "" then batchLoop c total gen s k rest created
        else
          let (tid, s') := create_download_task (gen k) url s
          batchLoop c total gen s' (k + 1) rest (created ++ [(tid, url)])

/-- The keys of `DEFAULT_CONFIG` (config.py lines 14-36). -/
def DEFAULT_CONFIG_keys : List String :=
  ["downloads_dir", "max_concurrent_downloads", "log_level", "proxy_enabled",
   "proxy_url", "use_aria2", "limit_rate", "save_thumbnail", "embed_thumbnail",
   "embed_chapters", "embed_subtitles", "auto_download_after_analyse"]

/-- The attribute names present on a `Config` instance: `__init__` sets
`BASE_DIR` and `CONFIG_PATH`, `_load_or_create_config` setattrs exactly the
`DEFAULT_CONFIG` keys (config.py lines 118-119 — whatever the yaml file
holds, `user_config.get(key, default)` always yields a value for each such
key and no other), and `__init__` then adds the derived path attributes.
`Config.update` only setattrs keys already in `DEFAULT_CONFIG`
(config.py line 137), so this attribute set is stable for the life of the
process. -/
def configAttrNames : List String :=
  ["BASE_DIR", "CONFIG_PATH"] ++ DEFAULT_CONFIG_keys ++
  ["DOWNLOADS_DIR", "LOG_DIR", "LOG_FILE", "YTDLP_DEFAULT_OUTTMPL"]

/-- Answer of the batch route: HTTP status code, the created/skipped payload
when the loop ran to an answer (201), and the store afterwards. -/
structure BatchResp where
  code : ℕ
  result : Option BatchResult
  store : Store
deriving DecidableEq

/-- api_routes.py `start_batch_download` (after JSON parsing): 400 for an
empty list; otherwise the body runs inside `try:` and first builds
`user_options` by reading `config.batch_download_quality` and
`config.batch_download_format` — when either attribute is missing from the
Config instance (`attrs` is its attribute-name set) Python raises
`AttributeError`, the `except Exception` handler answers 500, and the loop
never runs; only when both attributes exist does the admission loop
execute and answer 201. -/
def start_batch_download (attrs : List String) (max_concurrent : ℕ) (s : Store)
    (gen : ℕ → String) (urls : List String) : BatchResp :=
  if urls.isEmpty then ⟨400, none, s⟩
  else if "batch_download_quality" ∈ attrs ∧ "batch_download_format" ∈ attrs then
    let res := batchLoop max_concurrent urls.length gen s 0 urls []
    ⟨201, some res, res.store⟩
  else ⟨500, none, s⟩

/-- api_routes.py `get_download_progress`: `status = get_task_status(task_id)`;
an empty (falsy) dict answers 404 with `{"status": "not_found", ...}`, else
200 with the record itself. -/
def get_download_progress (s : Store) (task_id : String) : ℕ × Rec :=
  let status := get_task_status s task_id
  if status = ([] : List (String × Value)) then
    (404, [("status", Value.str "not_found"), ("error", Value.str "Task not found.")])
  else (200, status)

/-! ### Heap model of dict aliasing, for `get_task_status`'s `.copy()` -/

/-- A heap of dict objects; an address is an index into `cells`. -/
structure DictHeap where
  cells : List Rec
deriving DecidableEq

/-- Read the dict object at address `a`. -/
def readCell (h : DictHeap) (a : ℕ) : Rec :=
  (h.cells.get? a).getD []

/-- In-place mutation of the dict object at address `a` (any combination of
added, removed or changed fields yields some new contents `r`). -/
def writeCell (h : DictHeap) (a : ℕ) (r : Rec) : DictHeap :=
  ⟨h.cells.set a r⟩

/-- Allocate a fresh dict object holding `r`; returns the new heap and the
fresh address. -/
def allocCell (h : DictHeap) (r : Rec) : DictHeap × ℕ :=
  (⟨h.cells ++ [r]⟩, h.cells.length)

/-- The registry seen through the heap: task id -> address of its record. -/
def StoreRefs : Type := List (String × ℕ)

/-- Address of a task's record, if present. -/
def refsLookup : StoreRefs → String → Option ℕ
  | [], _ => none
  | (k', a) :: rest, k => if k' = k then some a else refsLookup rest k

/-- `get_task_status` in the heap model: `.copy()` allocates a fresh dict
with the same contents (`{}` when the id is absent) and returns its
address. -/
def get_task_statusRef (s : StoreRefs) (h : DictHeap) (task_id : String) :
    DictHeap × ℕ :=
  let contents :=
    match refsLookup s task_id with
    | some a => readCell h a
    | none => []
  allocCell h contents

/-! ### Basic lemmas about the dict and store operations -/

theorem storeLookup_storeSet_self (s : Store) (k : String) (r : Rec) :
    storeLookup (storeSet s k r) k = some r := by
  induction s with
  | nil => simp [storeSet, storeLookup]
  | cons hd tl ih =>
      by_cases h : hd.1 = k
      · simp [storeSet, storeLookup, h]
      · simp [storeSet, storeLookup, h, ih]

theorem storeLookup_storeSet_ne (s : Store) (k k' : String) (r : Rec)
    (h : k' ≠ k) : storeLookup (storeSet s k r) k' = storeLookup s k' := by
  have hne : ¬(k = k') := fun hh => h hh.symm
  induction s with
  | nil => simp [storeSet, storeLookup, hne]
  | cons hd tl ih =>
      obtain ⟨k0, r0⟩ := hd
      by_cases hk : k0 = k
      · subst hk
        simp [storeSet, storeLookup, hne]
      · simp [storeSet, storeLookup, hk, ih]

theorem recGet_recSet_self (r : Rec) (k : String) (v : Value) :
    recGet (recSet r k v) k = some v := by
  induction r with
  | nil => simp [recSet, recGet]
  | cons hd tl ih =>
      by_cases h : hd.1 = k
      · simp [recSet, recGet, h]
      · simp [recSet, recGet, h, ih]

theorem recGet_recSet_ne (r : Rec) (k k' : String) (v : Value)
    (h : k' ≠ k) : recGet (recSet r k v) k' = recGet r k' := by
  have hne : ¬(k = k') := fun hh => h hh.symm
  induction r with
  | nil => simp [recSet, recGet, hne]
  | cons hd tl ih =>
      obtain ⟨k0, v0⟩ := hd
      by_cases hk : k0 = k
      · subst hk
        simp [recSet, recGet, hne]
      · simp [recSet, recGet, hk, ih]

theorem update_of_lookup (s : Store) (id : String) (r : Rec) (pd : Rec)
    (h : storeLookup s id = some r) :
    _update_task_progress s id pd = storeSet s id (recUpdate r pd) := by
  unfold _update_task_progress
  rw [h]

theorem update_of_absent (s : Store) (id : String) (pd : Rec)
    (h : storeLookup s id = none) :
    _update_task_progress s id pd = s := by
  unfold _update_task_progress
  rw [h]

theorem update_preserves_present (s : Store) (id id2 : String) (pd : Rec)
    (h : (storeLookup s id2).isSome) :
    (storeLookup (_update_task_progress s id pd) id2).isSome := by
  unfold _update_task_progress
  cases hl : storeLookup s id with
  | none => exact h
  | some r =>
      by_cases he : id2 = id
      · subst he
        rw [storeLookup_storeSet_self]
        rfl
      · rw [storeLookup_storeSet_ne _ _ _ _ he]
        exact h

theorem progressSink_preserves_present (s : Store) (id id2 : String) (d : HookDict)
    (h : (storeLookup s id2).isSome) :
    (storeLookup (progressSink s id d) id2).isSome := by
  unfold progressSink
  cases _progress_hook d with
  | none => exact h
  | some pd => exact update_preserves_present s id id2 pd h

theorem sinkFold_preserves_present (id id2 : String) (events : List HookDict)
    (s : Store) (h : (storeLookup s id2).isSome) :
    (storeLookup (events.foldl (fun st d => progressSink st id d) s) id2).isSome := by
  induction events generalizing s with
  | nil => exact h
  | cons d rest ih =>
      exact ih _ (progressSink_preserves_present s id id2 d h)

/-- Merging a two-field dict is two `recSet`s. -/
theorem recUpdate_pair (r : Rec) (k1 k2 : String) (v1 v2 : Value) :
    recUpdate r [(k1, v1), (k2, v2)] = recSet (recSet r k1 v1) k2 v2 := rfl

/-! ### Claim theorems -/

/-- C5: `create_download_task` inserts the initial record
`{status: queued, url, percent: 0}` into the store it returns together with
the task id, so a status query for the returned id against that store finds
a non-absent (non-empty) record whose status is `queued`. -/
theorem c5_create_task_immediately_visible (s : Store) (task_id url : String) :
    get_task_status (create_download_task task_id url s).2
        (create_download_task task_id url s).1 = initialRec url ∧
    get_task_status (create_download_task task_id url s).2
        (create_download_task task_id url s).1 ≠ ([] : List (String × Value)) ∧
    recGet (get_task_status (create_download_task task_id url s).2
        (create_download_task task_id url s).1) "status" = some (Value.str "queued") := by
  have h : get_task_status (create_download_task task_id url s).2
      (create_download_task task_id url s).1 = initialRec url := by
    unfold create_download_task get_task_status
    rw [storeLookup_storeSet_self]
    rfl
  refine ⟨h, ?_, ?_⟩
  · rw [h]; simp [initialRec]
  · rw [h]; rfl

/-- C8: an update whose task id is absent from the store is a no-op apart
from the logged warning — `_update_task_progress` returns the store
unchanged (no record created or modified), and it is a total function, so
no exception reaches the caller. -/
theorem c8_update_unknown_id_is_noop (s : Store) (task_id : String) (pd : Rec)
    (h : storeLookup s task_id = none) :
    _update_task_progress s task_id pd = s :=
  update_of_absent s task_id pd h

theorem c8_update_unknown_id_is_noop_witness :
    storeLookup [("a", initialRec "https://u")] "t" = none ∧
    _update_task_progress [("a", initialRec "https://u")] "t"
        [("status", Value.str "downloading")] = [("a", initialRec "https://u")] :=
  ⟨by decide, c8_update_unknown_id_is_noop _ _ _ (by decide)⟩

/-- C10: for an id with no record, `get_task_status` returns the empty dict
(never a null value — the model is a total function into `Rec`), and the
progress endpoint maps that falsy value to a 404 answer with status
`not_found`. -/
theorem c10_absent_id_empty_dict_then_404 (s : Store) (task_id : String)
    (h : storeLookup s task_id = none) :
    get_task_status s task_id = ([] : List (String × Value)) ∧
    get_download_progress s task_id =
      (404, [("status", Value.str "not_found"), ("error", Value.str "Task not found.")]) := by
  have hg : get_task_status s task_id = ([] : List (String × Value)) := by
    unfold get_task_status
    rw [h]
    rfl
  exact ⟨hg, by simp [get_download_progress, hg]⟩

theorem c10_absent_id_empty_dict_then_404_witness :
    storeLookup [("a", initialRec "https://u")] "t" = none ∧
    (get_task_status [("a", initialRec "https://u")] "t" = ([] : List (String × Value)) ∧
     get_download_progress [("a", initialRec "https://u")] "t" =
       (404, [("status", Value.str "not_found"), ("error", Value.str "Task not found.")])) :=
  ⟨by decide, c10_absent_id_empty_dict_then_404 _ _ (by decide)⟩

/-- C2 counterexample: a record already in the terminal status `completed` is
mutated by a later store update — `_update_task_progress` has no
terminal-state guard, so the claim "once terminal, the record is never
mutated again" fails at this input. -/
theorem c2_counterexample_terminal_record_mutated :
    recGet (get_task_status
        [("t", [("status", Value.str "completed"), ("percent", Value.num 100)])] "t") "status"
      = some (Value.str "completed") ∧
    recGet (get_task_status (_update_task_progress
        [("t", [("status", Value.str "completed"), ("percent", Value.num 100)])]
        "t" [("status", Value.str "downloading")]) "t") "status"
      = some (Value.str "downloading") := by decide

/-- C2 (amended): the store itself does not enforce terminal-state finality:
`_update_task_progress` merges the given fields into the record
unconditionally, even when the record's status is `completed` or `error`,
so an update carrying a `status` field does change a terminal record's
status to the carried value. -/
theorem c2_update_mutates_terminal_records (s : Store) (task_id : String) (r : Rec)
    (v : Value) (h : storeLookup s task_id = some r)
    (_hterm : recGet r "status" = some (Value.str "completed") ∨
              recGet r "status" = some (Value.str "error")) :
    storeLookup (_update_task_progress s task_id [("status", v)]) task_id
      = some (recSet r "status" v) ∧
    recGet (recSet r "status" v) "status" = some v := by
  constructor
  · rw [update_of_lookup s task_id r _ h, storeLookup_storeSet_self]
    rfl
  · exact recGet_recSet_self r "status" v

theorem c2_update_mutates_terminal_records_witness :
    storeLookup [("t", [("status", Value.str "error")])] "t"
      = some [("status", Value.str "error")] ∧
    (storeLookup (_update_task_progress [("t", [("status", Value.str "error")])] "t"
        [("status", Value.str "queued")]) "t"
      = some (recSet [("status", Value.str "error")] "status" (Value.str "queued")) ∧
     recGet (recSet [("status", Value.str "error")] "status" (Value.str "queued")) "status"
      = some (Value.str "queued")) :=
  ⟨by decide, c2_update_mutates_terminal_records _ _ _ _ (by decide) (Or.inr (by decide))⟩

/-- C6: whenever the engine call returns a success result, the worker's final
update leaves the task record with status `completed` and percent `100`,
whatever progress events were delivered before. -/
theorem c6_success_ends_completed_100 (s : Store) (task_id : String)
    (events : List HookDict) (result : DlOutcome)
    (hpresent : (storeLookup s task_id).isSome = true)
    (hsuccess : result.success = true) :
    ∃ r, storeLookup (_download_worker task_id events result s) task_id = some r ∧
      recGet r "status" = some (Value.str "completed") ∧
      recGet r "percent" = some (Value.num 100) := by
  have h1 := sinkFold_preserves_present task_id task_id events s hpresent
  obtain ⟨r1, hr1⟩ := Option.isSome_iff_exists.mp h1
  simp only [_download_worker]
  rw [update_of_lookup _ _ _ _ hr1, storeLookup_storeSet_self]
  refine ⟨_, rfl, ?_, ?_⟩ <;>
    simp [workerFinalRec, hsuccess, recUpdate, recGet_recSet_ne, recGet_recSet_self]

theorem c6_success_ends_completed_100_witness :
    (storeLookup [("t", initialRec "https://u")] "t").isSome = true ∧
    (⟨true, none⟩ : DlOutcome).success = true ∧
    ∃ r, storeLookup (_download_worker "t"
        [⟨some "downloading", some 200, none, some 50, none, none⟩]
        ⟨true, none⟩ [("t", initialRec "https://u")]) "t" = some r ∧
      recGet r "status" = some (Value.str "completed") ∧
      recGet r "percent" = some (Value.num 100) :=
  ⟨rfl, rfl, c6_success_ends_completed_100 _ _ _ _ rfl rfl⟩

/-- C7 counterexample: on the worker's uncaught-fault path the error message
written into the record is the literal
`"A critical error occurred in the worker thread."`, not the
`"internal worker fault"` stated by the claim. -/
theorem c7_counterexample_generic_message_differs :
    recGet (get_task_status
        (_download_worker_faulted "t" [] [("t", initialRec "https://u")]) "t") "error"
      = some (Value.str "A critical error occurred in the worker thread.") ∧
    recGet (get_task_status
        (_download_worker_faulted "t" [] [("t", initialRec "https://u")]) "t") "error"
      ≠ some (Value.str "internal worker fault") := by decide

/-- C7 (amended): on any uncaught fault inside the worker body the record is
updated to status `error` with the generic message
`"A critical error occurred in the worker thread."`; the resulting status
is terminal (not in the active set), so this path never leaves the task in
a non-terminal state. -/
theorem c7_fault_path_is_terminal_error (s : Store) (task_id : String)
    (events : List HookDict) (hpresent : (storeLookup s task_id).isSome = true) :
    ∃ r, storeLookup (_download_worker_faulted task_id events s) task_id = some r ∧
      recGet r "status" = some (Value.str "error") ∧
      recGet r "error" =
        some (Value.str "A critical error occurred in the worker thread.") ∧
      isActiveStatus (recGet r "status") = false := by
  have h1 := sinkFold_preserves_present task_id task_id events s hpresent
  obtain ⟨r1, hr1⟩ := Option.isSome_iff_exists.mp h1
  simp only [_download_worker_faulted]
  rw [update_of_lookup _ _ _ _ hr1, storeLookup_storeSet_self]
  have hst : recGet (recUpdate r1
      [("status", Value.str "error"),
       ("error", Value.str "A critical error occurred in the worker thread.")]) "status"
      = some (Value.str "error") := by
    simp [recUpdate, recGet_recSet_ne, recGet_recSet_self]
  refine ⟨_, rfl, hst, ?_, ?_⟩
  · simp [recUpdate, recGet_recSet_ne, recGet_recSet_self]
  · rw [hst]; rfl

theorem c7_fault_path_is_terminal_error_witness :
    (storeLookup [("t", initialRec "https://u")] "t").isSome = true ∧
    ∃ r, storeLookup (_download_worker_faulted "t"
        [⟨some "downloading", some 200, none, some 50, none, none⟩]
        [("t", initialRec "https://u")]) "t" = some r ∧
      recGet r "status" = some (Value.str "error") ∧
      recGet r "error" =
        some (Value.str "A critical error occurred in the worker thread.") ∧
      isActiveStatus (recGet r "status") = false :=
  ⟨rfl, c7_fault_path_is_terminal_error _ _ _ rfl⟩

/-- C1 counterexample: a transfer-in-progress event whose total byte count is
unknown (no `total_bytes`, no `total_bytes_estimate`) does not leave the
record's percent unchanged: the record held percent `50`, and after the
event the sink has overwritten it with `0`. -/
theorem c1_counterexample_percent_overwritten :
    hookTotal ⟨some "downloading", none, none, some 10, none, none⟩ = 0 ∧
    recGet (get_task_status
        [("t", [("status", Value.str "downloading"), ("percent", Value.num 50)])] "t")
        "percent" = some (Value.num 50) ∧
    recGet (get_task_status (progressSink
        [("t", [("status", Value.str "downloading"), ("percent", Value.num 50)])] "t"
        ⟨some "downloading", none, none, some 10, none, none⟩) "t") "percent"
      = some (Value.num 0) := by decide

/-- C1 (amended): for every transfer-in-progress event, the sink sets the
record's status to `downloading` and sets percent to
`downloaded/total*100` when the total (taken from `total_bytes`, falling
back to `total_bytes_estimate`) is positive, and to `0` — not leaving it
unchanged — when the total is unknown or not positive. -/
theorem c1_downloading_tick_sets_percent (s : Store) (task_id : String) (d : HookDict)
    (r : Rec) (h : storeLookup s task_id = some r)
    (hst : d.status = some "downloading") :
    ∃ r', storeLookup (progressSink s task_id d) task_id = some r' ∧
      recGet r' "status" = some (Value.str "downloading") ∧
      recGet r' "percent" = some (Value.num
        (if 0 < hookTotal d then d.downloaded_bytes.getD 0 / hookTotal d * 100 else 0)) := by
  have hhook : _progress_hook d = some
      [("status", Value.str "downloading"),
       ("percent", Value.num
         (if 0 < hookTotal d then d.downloaded_bytes.getD 0 / hookTotal d * 100 else 0)),
       ("total", Value.num (hookTotal d)),
       ("downloaded", Value.num (d.downloaded_bytes.getD 0)),
       ("speed", Value.num (d.speed.getD 0)),
       ("eta", Value.num (d.eta.getD 0))] := by
    unfold _progress_hook
    rw [hst]
    rfl
  have hsink : progressSink s task_id d = _update_task_progress s task_id
      [("status", Value.str "downloading"),
       ("percent", Value.num
         (if 0 < hookTotal d then d.downloaded_bytes.getD 0 / hookTotal d * 100 else 0)),
       ("total", Value.num (hookTotal d)),
       ("downloaded", Value.num (d.downloaded_bytes.getD 0)),
       ("speed", Value.num (d.speed.getD 0)),
       ("eta", Value.num (d.eta.getD 0))] := by
    unfold progressSink
    rw [hhook]
  rw [hsink, update_of_lookup _ _ _ _ h, storeLookup_storeSet_self]
  refine ⟨_, rfl, ?_, ?_⟩ <;>
    simp [recUpdate, recGet_recSet_ne, recGet_recSet_self]

theorem c1_downloading_tick_sets_percent_witness :
    storeLookup [("t", initialRec "https://u")] "t" = some (initialRec "https://u") ∧
    (⟨some "downloading", some 200, none, some 50, none, none⟩ : HookDict).status
      = some "downloading" ∧
    ∃ r', storeLookup (progressSink [("t", initialRec "https://u")] "t"
        ⟨some "downloading", some 200, none, some 50, none, none⟩) "t" = some r' ∧
      recGet r' "status" = some (Value.str "downloading") ∧
      recGet r' "percent" = some (Value.num
        (if 0 < hookTotal ⟨some "downloading", some 200, none, some 50, none, none⟩
         then (⟨some "downloading", some 200, none, some 50, none,
                none⟩ : HookDict).downloaded_bytes.getD 0 /
              hookTotal ⟨some "downloading", some 200, none, some 50, none, none⟩ * 100
         else 0)) :=
  ⟨rfl, rfl, c1_downloading_tick_sets_percent _ _ _ _ rfl rfl⟩

/-- C3: for a single-download request carrying a valid URL, a task is created
exactly when the active-task count (`queued`/`downloading`/`processing`) is
strictly below the concurrency ceiling: below the ceiling the route answers
201 with the new id, spawns one worker for it, and inserts the initial
queued record; at or above the ceiling it answers 429, inserts no record
(the store is returned unchanged) and spawns no worker. -/
theorem c3_admission_iff_below_ceiling (s : Store) (max_concurrent : ℕ)
    (newId rawUrl : String)
    (hurl : _extract_url_from_text (pyStrip rawUrl) ≠ "") :
    (get_active_downloads_count s < max_concurrent →
      start_download s max_concurrent newId rawUrl =
        ⟨201, some newId, [newId],
         storeSet s newId (initialRec (_extract_url_from_text (pyStrip rawUrl)))⟩) ∧
    (max_concurrent ≤ get_active_downloads_count s →
      start_download s max_concurrent newId rawUrl = ⟨429, none, [], s⟩) := by
  constructor
  · intro hlt
    simp [start_download, create_download_task, hurl, Nat.not_le.mpr hlt]
  · intro hle
    simp [start_download, hurl, hle]

theorem c3_admission_iff_below_ceiling_witness :
    (_extract_url_from_text (pyStrip " https://a ") ≠ "") ∧
    start_download [] 1 "t" " https://a " =
      ⟨201, some "t", ["t"],
       storeSet [] "t" (initialRec (_extract_url_from_text (pyStrip " https://a ")))⟩ ∧
    start_download [("t", initialRec "https://a")] 1 "u" " https://b " =
      ⟨429, none, [], [("t", initialRec "https://a")]⟩ :=
  ⟨by decide,
   (c3_admission_iff_below_ceiling [] 1 "t" " https://a " (by decide)).1 (by decide),
   (c3_admission_iff_below_ceiling [("t", initialRec "https://a")] 1 "u" " https://b "
     (by decide)).2 (by decide)⟩

/-- C4 (code bug): the batch admission behaviour the claim (and the route's
own docstring and skip-message building) describe never executes.
`user_options` is built from `config.batch_download_quality` and
`config.batch_download_format` (api_routes.py lines 202-206), but neither
name is ever an attribute of a `Config` instance — `DEFAULT_CONFIG` lacks
both keys and only its keys are ever setattr'd — so every non-empty batch
request raises `AttributeError` inside the `try:` and is answered 500 by
the `except` handler, with no task created, no admission check performed
and no skip count reported (the store comes back unchanged). -/
theorem c4_batch_route_always_500 (s : Store) (max_concurrent : ℕ)
    (gen : ℕ → String) (u : String) (rest : List String) :
    "batch_download_quality" ∉ configAttrNames ∧
    "batch_download_format" ∉ configAttrNames ∧
    start_batch_download configAttrNames max_concurrent s gen (u :: rest)
      = ⟨500, none, s⟩ := by
  refine ⟨by decide, by decide, ?_⟩
  unfold start_batch_download
  rw [if_neg (by simp), if_neg (by decide)]

/-! ### Lemmas for the heap model -/

theorem cellsGet_append_lt (l1 l2 : List Rec) (a : ℕ) (h : a < l1.length) :
    (l1 ++ l2).get? a = l1.get? a := by
  induction l1 generalizing a with
  | nil => simp at h
  | cons hd tl ih =>
      cases a with
      | zero => rfl
      | succ n =>
          simp only [List.length_cons, Nat.succ_lt_succ_iff] at h
          simpa using ih n h

theorem cellsGet_concat_len (l : List Rec) (x : Rec) :
    (l ++ [x]).get? l.length = some x := by
  induction l with
  | nil => rfl
  | cons hd tl ih => simp [ih]

theorem cellsGet_set_ne (l : List Rec) (i j : ℕ) (x : Rec) (h : i ≠ j) :
    (l.set i x).get? j = l.get? j := by
  induction l generalizing i j with
  | nil => rfl
  | cons hd tl ih =>
      cases i with
      | zero =>
          cases j with
          | zero => exact absurd rfl h
          | succ m => rfl
      | succ n =>
          cases j with
          | zero => rfl
          | succ m =>
              simpa using ih n m (fun hh => h (by omega))

/-- C9: `get_task_status` hands back a copy.  In the heap model, the address
it returns is distinct from the address of the stored record, the copy's
contents equal the stored record, and after an arbitrary in-place mutation
of the returned dict (`r'` being any new contents, covering added, removed
or changed fields) the stored record is unchanged and a subsequent
`get_task_status` for the same id still returns the original contents. -/
theorem c9_get_task_status_returns_copy (s : StoreRefs) (heap : DictHeap)
    (task_id : String) (a : ℕ) (r' : Rec)
    (h1 : refsLookup s task_id = some a) (h2 : a < heap.cells.length) :
    (get_task_statusRef s heap task_id).2 ≠ a ∧
    readCell (get_task_statusRef s heap task_id).1
        (get_task_statusRef s heap task_id).2 = readCell heap a ∧
    readCell (writeCell (get_task_statusRef s heap task_id).1
        (get_task_statusRef s heap task_id).2 r') a = readCell heap a ∧
    readCell (get_task_statusRef s (writeCell (get_task_statusRef s heap task_id).1
          (get_task_statusRef s heap task_id).2 r') task_id).1
        (get_task_statusRef s (writeCell (get_task_statusRef s heap task_id).1
          (get_task_statusRef s heap task_id).2 r') task_id).2 = readCell heap a := by
  have hres : get_task_statusRef s heap task_id
      = (⟨heap.cells ++ [readCell heap a]⟩, heap.cells.length) := by
    unfold get_task_statusRef
    rw [h1]
    rfl
  have hne : heap.cells.length ≠ a := fun hh => by omega
  have hcopy : readCell (⟨heap.cells ++ [readCell heap a]⟩ : DictHeap)
      heap.cells.length = readCell heap a := by
    unfold readCell
    rw [cellsGet_concat_len]
    rfl
  have hframe : readCell (writeCell (⟨heap.cells ++ [readCell heap a]⟩ : DictHeap)
      heap.cells.length r') a = readCell heap a := by
    unfold writeCell readCell
    rw [cellsGet_set_ne _ _ _ _ hne, cellsGet_append_lt _ _ _ h2]
  refine ⟨?_, ?_, ?_, ?_⟩
  · rw [hres]; exact hne
  · rw [hres]; exact hcopy
  · rw [hres]; exact hframe
  · rw [hres]
    have hres2 : get_task_statusRef s
        (writeCell (⟨heap.cells ++ [readCell heap a]⟩ : DictHeap) heap.cells.length r')
        task_id
        = (⟨(writeCell (⟨heap.cells ++ [readCell heap a]⟩ : DictHeap)
              heap.cells.length r').cells ++ [readCell heap a]⟩,
           (writeCell (⟨heap.cells ++ [readCell heap a]⟩ : DictHeap)
              heap.cells.length r').cells.length) := by
      unfold get_task_statusRef
      rw [h1]
      show allocCell _ (readCell _ a) = _
      rw [hframe]
      rfl
    rw [hres2]
    unfold readCell
    rw [cellsGet_concat_len]
    rfl

theorem c9_get_task_status_returns_copy_witness :
    refsLookup [("t", 0)] "t" = some 0 ∧
    0 < (⟨[[("status", Value.str "queued")]]⟩ : DictHeap).cells.length ∧
    ((get_task_statusRef [("t", 0)] ⟨[[("status", Value.str "queued")]]⟩ "t").2 ≠ 0 ∧
     readCell (get_task_statusRef [("t", 0)] ⟨[[("status", Value.str "queued")]]⟩ "t").1
        (get_task_statusRef [("t", 0)] ⟨[[("status", Value.str "queued")]]⟩ "t").2
        = readCell ⟨[[("status", Value.str "queued")]]⟩ 0 ∧
     readCell (writeCell
        (get_task_statusRef [("t", 0)] ⟨[[("status", Value.str "queued")]]⟩ "t").1
        (get_task_statusRef [("t", 0)] ⟨[[("status", Value.str "queued")]]⟩ "t").2
        [("status", Value.str "hacked")]) 0
        = readCell ⟨[[("status", Value.str "queued")]]⟩ 0 ∧
     readCell (get_task_statusRef [("t", 0)] (writeCell
          (get_task_statusRef [("t", 0)] ⟨[[("status", Value.str "queued")]]⟩ "t").1
          (get_task_statusRef [("t", 0)] ⟨[[("status", Value.str "queued")]]⟩ "t").2
          [("status", Value.str "hacked")]) "t").1
        (get_task_statusRef [("t", 0)] (writeCell
          (get_task_statusRef [("t", 0)] ⟨[[("status", Value.str "queued")]]⟩ "t").1
          (get_task_statusRef [("t", 0)] ⟨[[("status", Value.str "queued")]]⟩ "t").2
          [("status", Value.str "hacked")]) "t").2
        = readCell ⟨[[("status", Value.str "queued")]]⟩ 0) :=
  ⟨by decide, by decide,
   c9_get_task_status_returns_copy [("t", 0)] ⟨[[("status", Value.str "queued")]]⟩
     "t" 0 [("status", Value.str "hacked")] (by decide) (by decide)⟩

end Arachne
